import Mathlib

/-!
Verification development for the Inventory-System repository.

The embedding follows the source files:
* `src/models.py`  — `InventoryItem`, its validators and `to_dict`;
* `src/manager.py` — `InventoryManager` CRUD operations over a SQLite table,
  each wrapped in a `DatabaseSession`;
* `src/api.py`     — the Flask create endpoint `add_item_api`;
* `src/database.py` is imported by the sources but absent from the repository;
  `runSession` models it from the specification.

Python runtime values reaching the validators are modelled by `PyVal`
(strings, ints, floats-as-rationals, None).  The SQLite table is a list of
rows; `INTEGER PRIMARY KEY` rowid assignment (no `AUTOINCREMENT`) is
modelled by `nextRowId`: one more than the largest rowid currently in the
table, 1 when the table is empty, matching SQLite's documented behaviour
that `cursor.lastrowid` reuses ids freed by deleting the maximal row.
-/

/-- A Python value as it can arrive from JSON / call sites: a string, an
`int`, a `float` (modelled as a rational), or `None`. -/
inductive PyVal where
  | vstr : String → PyVal
  | vint : Int → PyVal
  | vfloat : ℚ → PyVal
  | vnone : PyVal
deriving DecidableEq, Repr

/-- The distinct `ValidationError` messages raised in `src/models.py`
(`_validate_name`, `_validate_quantity`, `_validate_price`): nine cases. -/
inductive ValidationError where
  | nameNotString | nameEmpty | nameTooLong
  | quantityNotInt | quantityNegative | quantityTooBig
  | priceNotNumber | priceNegative | priceTooBig
deriving DecidableEq, Repr

/-- Constant `InventoryItem.MAX_NAME_LENGHT` (sic) in `src/models.py`. -/
def MAX_NAME_LENGHT : Nat := 255
/-- Constant `InventoryItem.MIN_QUANTITY`. -/
def MIN_QUANTITY : Int := 0
/-- Constant `InventoryItem.MAX_QUANTITY`. -/
def MAX_QUANTITY : Int := 1000000
/-- Constant `InventoryItem.MIN_PRICE`. -/
def MIN_PRICE : ℚ := 0
/-- Constant `InventoryItem.MAX_PRICE`. -/
def MAX_PRICE : ℚ := 1000000

/-- Python `str.strip()`: remove leading and trailing whitespace
(space, tab, carriage return, newline). -/
def pyStrip (s : String) : String :=
  String.mk
    (((s.data.dropWhile Char.isWhitespace).reverse.dropWhile
        Char.isWhitespace).reverse)

/-- Embeds `InventoryItem._validate_name`: must be a string, stripped of
surrounding whitespace, non-empty, at most 255 characters. -/
def validate_name : PyVal → Except ValidationError String
  | .vstr s =>
      let name := pyStrip s
      if name = "" then .error .nameEmpty
      else if name.length > MAX_NAME_LENGHT then .error .nameTooLong
      else .ok name
  | _ => .error .nameNotString

/-- Embeds `InventoryItem._validate_quantity`: must be an `int`, non-negative,
at most `MAX_QUANTITY`. -/
def validate_quantity : PyVal → Except ValidationError Int
  | .vint n =>
      if n < MIN_QUANTITY then .error .quantityNegative
      else if n > MAX_QUANTITY then .error .quantityTooBig
      else .ok n
  | _ => .error .quantityNotInt

/-- Models `isinstance(price, (float, int))`: the numeric payload of a `PyVal`,
ints coerced to the rational they denote. -/
def priceNum : PyVal → Option ℚ
  | .vint n => some (n : ℚ)
  | .vfloat q => some q
  | _ => none

/-- Embeds `InventoryItem._validate_price`: must be numeric (`float` or `int`),
non-negative, at most `MAX_PRICE`. -/
def validate_price (price : PyVal) : Except ValidationError ℚ :=
  match priceNum price with
  | none => .error .priceNotNumber
  | some q =>
      if q < MIN_PRICE then .error .priceNegative
      else if q > MAX_PRICE then .error .priceTooBig
      else .ok q

/-- The validated data model of `src/models.py`. -/
structure InventoryItem where
  item_id : Option Int
  name : String
  quantity : Int
  price : ℚ
  created_at : Option String
  updated_at : Option String
deriving DecidableEq, Repr

/-- Embeds `InventoryItem.__init__`: runs the three validators (name, then
quantity, then price) and stores the validated values; the first failing
validator's error propagates. -/
def mkInventoryItem (name quantity price : PyVal) (item_id : Option Int)
    (created_at updated_at : Option String) :
    Except ValidationError InventoryItem := do
  let n ← validate_name name
  let q ← validate_quantity quantity
  let p ← validate_price price
  return { item_id := item_id, name := n, quantity := q, price := p,
           created_at := created_at, updated_at := updated_at }

/-- Translates `None`-or-int to a JSON value. -/
def optIntVal : Option Int → PyVal
  | some i => .vint i
  | none => .vnone

/-- Translates `None`-or-string to a JSON value. -/
def optStrVal : Option String → PyVal
  | some s => .vstr s
  | none => .vnone

/-- Embeds `InventoryItem.to_dict` from `src/models.py`, key order as written in
the source; note the source spells the last key `"update_at"`. -/
def to_dict (it : InventoryItem) : List (String × PyVal) :=
  [("item_id", optIntVal it.item_id),
   ("name", .vstr it.name),
   ("quantity", .vint it.quantity),
   ("price", .vfloat it.price),
   ("created_at", optStrVal it.created_at),
   ("update_at", optStrVal it.updated_at)]

/-! ## The SQLite-backed store (`src/manager.py`) -/

/-- One row of the `inventory` table created in `InventoryManager._init_db`:
`item_id INTEGER PRIMARY KEY, name TEXT NOT NULL, quantity INTEGER NOT NULL,
price REAL NOT NULL`. -/
structure Row where
  item_id : Int
  name : String
  quantity : Int
  price : ℚ
deriving DecidableEq, Repr

/-- The state of the `inventory` table, rows in insertion order. -/
abbrev DB := List Row

/-- The item_ids of the rows currently stored. -/
def ids (db : DB) : List Int :=
  db.map (fun r => r.item_id)

/-- The largest rowid currently in the table (0 when empty; rowids of rows
inserted by this program are always positive). -/
def maxRowId (db : DB) : Int :=
  db.foldr (fun r m => max r.item_id m) 0

/-- SQLite rowid assignment for `item_id INTEGER PRIMARY KEY` without
`AUTOINCREMENT` (the schema in `InventoryManager._init_db`): the new rowid
returned as `cursor.lastrowid` is one more than the largest rowid currently
in use, 1 when the table is empty.  Ids of deleted rows can therefore be
reused once the maximal row is deleted. -/
def nextRowId (db : DB) : Int :=
  maxRowId db + 1

/-- Outcome of running one store operation inside a `DatabaseSession`:
the value or propagated error, the table state afterwards, and whether the
session committed and released its connection. -/
structure SessionResult (α : Type) where
  outcome : Except ValidationError α
  finalDb : DB
  committed : Bool
  released : Bool
deriving Repr

/-- Modelled from the spec: `src/database.py` (class `DatabaseSession`,
imported by `src/manager.py` and `src/__init__.py`) is absent from the
repository.  Per the specification's Persistence Session contract it
guarantees commit on normal completion, rollback on an exception (the error
propagates to the caller after cleanup), and release of the connection and
cursor on every exit path. -/
def runSession {α : Type} (db : DB)
    (body : DB → Except ValidationError (α × DB)) : SessionResult α :=
  match body db with
  | .ok (a, db2) => { outcome := .ok a, finalDb := db2,
                      committed := true, released := true }
  | .error e => { outcome := .error e, finalDb := db,
                  committed := false, released := true }

/-- Body of `InventoryManager.add_item`: `INSERT INTO inventory (name,
quantity, price) VALUES (?, ?, ?)` with the raw arguments, read
`cursor.lastrowid`, then construct the validated `InventoryItem` (which can
raise `ValidationError`, still inside the session). -/
def add_item_body (name : String) (quantity : Int) (price : ℚ) (db : DB) :
    Except ValidationError (InventoryItem × DB) :=
  let new_id := nextRowId db
  let db2 := db ++ [{ item_id := new_id, name := name, quantity := quantity,
                      price := price }]
  match mkInventoryItem (.vstr name) (.vint quantity) (.vfloat price)
      (some new_id) none none with
  | .ok it => .ok (it, db2)
  | .error e => .error e

/-- Embeds `InventoryManager.add_item`, run inside its `DatabaseSession`. -/
def add_item (db : DB) (name : String) (quantity : Int) (price : ℚ) :
    SessionResult InventoryItem :=
  runSession db (add_item_body name quantity price)

/-- One `"field = ?"` entry of the dynamically built `UPDATE` statement in
`InventoryManager.update_item`. -/
inductive FieldSet where
  | set_name : String → FieldSet
  | set_quantity : Int → FieldSet
  | set_price : ℚ → FieldSet
deriving DecidableEq, Repr

/-- Applying one `SET` pair to a row. -/
def applyFieldSet (r : Row) : FieldSet → Row
  | .set_name s => { r with name := s }
  | .set_quantity n => { r with quantity := n }
  | .set_price q => { r with price := q }

/-- The `updates` list built in `InventoryManager.update_item`: one entry
per non-`None` argument, in the source's order name, quantity, price. -/
def buildUpdates (name : Option String) (quantity : Option Int)
    (price : Option ℚ) : List FieldSet :=
  (match name with | some s => [FieldSet.set_name s] | none => []) ++
  (match quantity with | some n => [FieldSet.set_quantity n] | none => []) ++
  (match price with | some q => [FieldSet.set_price q] | none => [])

/-- Body of `InventoryManager.update_item`: return `False` when the
`updates` list is empty, otherwise execute
`UPDATE inventory SET ... WHERE item_id = ?` (every matching row receives
all SET pairs) and return `cursor.rowcount > 0`. -/
def update_item_body (item_id : Int) (name : Option String)
    (quantity : Option Int) (price : Option ℚ) (db : DB) :
    Except ValidationError (Bool × DB) :=
  let updates := buildUpdates name quantity price
  if updates.isEmpty then .ok (false, db)
  else
    let db2 := db.map (fun r =>
      if r.item_id = item_id then updates.foldl applyFieldSet r else r)
    let rowcount := (db.filter (fun r => decide (r.item_id = item_id))).length
    .ok (decide (0 < rowcount), db2)

/-- Embeds `InventoryManager.update_item`, run inside its `DatabaseSession`. -/
def update_item (db : DB) (item_id : Int) (name : Option String)
    (quantity : Option Int) (price : Option ℚ) : SessionResult Bool :=
  runSession db (update_item_body item_id name quantity price)

/-- Body of `InventoryManager.delete_item`:
`DELETE FROM inventory WHERE item_id = ?`, return `cursor.rowcount > 0`. -/
def delete_item_body (item_id : Int) (db : DB) :
    Except ValidationError (Bool × DB) :=
  let rowcount := (db.filter (fun r => decide (r.item_id = item_id))).length
  let db2 := db.filter (fun r => decide (r.item_id ≠ item_id))
  .ok (decide (0 < rowcount), db2)

/-- Embeds `InventoryManager.delete_item`, run inside its `DatabaseSession`. -/
def delete_item (db : DB) (item_id : Int) : SessionResult Bool :=
  runSession db (delete_item_body item_id)

/-- Body of `InventoryManager.get_item`:
`SELECT * FROM inventory WHERE item_id = ?`, `fetchone`, returning the row
as a field mapping or `None`. -/
def get_item_body (item_id : Int) (db : DB) :
    Except ValidationError (Option Row × DB) :=
  .ok (db.find? (fun r => decide (r.item_id = item_id)), db)

/-- Embeds `InventoryManager.get_item`, run inside its `DatabaseSession`. -/
def get_item (db : DB) (item_id : Int) : SessionResult (Option Row) :=
  runSession db (get_item_body item_id)

/-- Body of `InventoryManager.get_all_items_data`:
`SELECT item_id, name, quantity, price FROM inventory`, all rows as a list
of field mappings. -/
def get_all_items_data_body (db : DB) :
    Except ValidationError (List Row × DB) :=
  .ok (db, db)

/-- Embeds `InventoryManager.get_all_items_data`, run inside its
`DatabaseSession`. -/
def get_all_items_data (db : DB) : SessionResult (List Row) :=
  runSession db get_all_items_data_body

/-! ## The Flask create endpoint (`src/api.py`) -/

/-- Python truthiness (`if not x`) on the values that can arrive from a
JSON body: `None`, `0`, `0.0` and `""` are falsy. -/
def truthy : PyVal → Bool
  | .vstr s => decide (s ≠ "")
  | .vint n => decide (n ≠ 0)
  | .vfloat q => decide (q ≠ 0)
  | .vnone => false

/-- A parsed JSON request body: key/value pairs.  `Request.get k` is
`data.get(k)` — `None` when the key is absent. -/
abbrev Req := List (String × PyVal)

/-- Models `data.get(key)` with Python's `None` default. -/
def getKey (data : Req) (key : String) : PyVal :=
  (data.lookup key).getD .vnone

/-- The response bodies `add_item_api` can produce, tagged by their
`message` text. -/
inductive ApiMsg where
  | missingJson                 -- "Missing JSON data in request."
  | nameRequired                -- "Item name is required"
  | quantityRequired            -- "Quantity is required"
  | priceRequired               -- "Price is required"
  | validationFailed            -- "validation failed" (no status code → 200)
  | itemAdded : String → ApiMsg -- "Item '<name>' added successfully."
  | serverError                 -- "Failed to add item: ..."
deriving DecidableEq, Repr

/-- An HTTP response: body tag and status code. -/
structure ApiResponse where
  msg : ApiMsg
  code : Nat
deriving DecidableEq, Repr

/-- Embeds `add_item_api` from `src/api.py` (`POST /api/item`): reject a falsy
body; extract `name`, `quantity`, `price` via `data.get`; reject any falsy
one as a missing-field 400 (so `0`, `0.0` and `""` are rejected as
missing); run the three validators (the validated name is discarded — the
raw name is what gets persisted); on validation failure answer
"validation failed" (with Flask's default status 200, as in the source);
otherwise call `inventory_manager.add_item(name, quantity, price)` and
answer 201. -/
def add_item_api (db : DB) (data : Req) : ApiResponse × DB :=
  if data.isEmpty then ({ msg := .missingJson, code := 400 }, db)
  else
    let name := getKey data "name"
    let quantity := getKey data "quantity"
    let price := getKey data "price"
    if ¬ truthy name then ({ msg := .nameRequired, code := 400 }, db)
    else if ¬ truthy quantity then
      ({ msg := .quantityRequired, code := 400 }, db)
    else if ¬ truthy price then ({ msg := .priceRequired, code := 400 }, db)
    else
      match validate_name name with
      | .error _ => ({ msg := .validationFailed, code := 200 }, db)
      | .ok _ =>
        match validate_quantity quantity with
        | .error _ => ({ msg := .validationFailed, code := 200 }, db)
        | .ok q =>
          match validate_price price with
          | .error _ => ({ msg := .validationFailed, code := 200 }, db)
          | .ok p =>
            match name with
            | .vstr s =>
              let r := add_item db s q p
              match r.outcome with
              | .ok _ => ({ msg := .itemAdded s, code := 201 }, r.finalDb)
              | .error _ => ({ msg := .serverError, code := 500 }, r.finalDb)
            | _ => ({ msg := .serverError, code := 500 }, db)

/-! ## Validator characterizations -/

theorem validate_name_ok_iff (v : PyVal) (t : String) :
    validate_name v = .ok t ↔
      ∃ s, v = .vstr s ∧ t = pyStrip s ∧ pyStrip s ≠ "" ∧
        (pyStrip s).length ≤ 255 := by
  cases v <;> simp [validate_name, MAX_NAME_LENGHT]
  case vstr s =>
    split_ifs with h1 h2
    · simp [h1]
    · constructor
      · intro h; cases h
      · rintro ⟨-, -, hle⟩; omega
    · constructor
      · intro h; cases h; exact ⟨rfl, h1, by omega⟩
      · rintro ⟨h, -, -⟩; rw [h]

theorem validate_quantity_ok_iff (v : PyVal) (k : Int) :
    validate_quantity v = .ok k ↔
      v = .vint k ∧ 0 ≤ k ∧ k ≤ 1000000 := by
  cases v <;> simp [validate_quantity, MIN_QUANTITY, MAX_QUANTITY]
  case vint n =>
    split_ifs with h1 h2
    · constructor
      · intro h; cases h
      · rintro ⟨rfl, h, -⟩; omega
    · constructor
      · intro h; cases h
      · rintro ⟨rfl, -, h⟩; omega
    · constructor
      · intro h; cases h; exact ⟨rfl, by omega, by omega⟩
      · rintro ⟨rfl, -, -⟩; rfl

theorem validate_price_ok_iff (v : PyVal) (p : ℚ) :
    validate_price v = .ok p ↔
      priceNum v = some p ∧ 0 ≤ p ∧ p ≤ 1000000 := by
  unfold validate_price
  cases hv : priceNum v
  · simp
  case some q =>
    simp only [MIN_PRICE, MAX_PRICE, Option.some.injEq]
    split_ifs with h1 h2
    · constructor
      · intro h; cases h
      · rintro ⟨rfl, h, -⟩; linarith
    · constructor
      · intro h; cases h
      · rintro ⟨rfl, -, h⟩; linarith
    · constructor
      · intro h; cases h; exact ⟨rfl, by linarith, by linarith⟩
      · rintro ⟨rfl, -, -⟩; rfl

theorem mkInventoryItem_ok_iff (n q p : PyVal) (i : Option Int)
    (c u : Option String) (it : InventoryItem) :
    mkInventoryItem n q p i c u = .ok it ↔
      validate_name n = .ok it.name ∧ validate_quantity q = .ok it.quantity ∧
      validate_price p = .ok it.price ∧ it.item_id = i ∧
      it.created_at = c ∧ it.updated_at = u := by
  unfold mkInventoryItem
  cases hn : validate_name n <;> cases hq : validate_quantity q <;>
    cases hp : validate_price p <;>
      simp_all [bind, Except.bind, pure, Except.pure] <;>
        (try cases it) <;> simp_all <;> tauto

theorem mkInventoryItem_error_iff (n q p : PyVal) (i : Option Int)
    (c u : Option String) :
    (∃ e, mkInventoryItem n q p i c u = .error e) ↔
      ¬ ∃ it, mkInventoryItem n q p i c u = .ok it := by
  cases h : mkInventoryItem n q p i c u <;> simp

/-- Decidable equality of `Except` results, for concrete evaluation. -/
instance {ε α : Type} [DecidableEq ε] [DecidableEq α] :
    DecidableEq (Except ε α) := fun x y =>
  match x, y with
  | .ok a, .ok b =>
      if h : a = b then .isTrue (by rw [h])
      else .isFalse (by intro hc; cases hc; exact h rfl)
  | .error a, .error b =>
      if h : a = b then .isTrue (by rw [h])
      else .isFalse (by intro hc; cases hc; exact h rfl)
  | .ok _, .error _ => .isFalse (by intro hc; cases hc)
  | .error _, .ok _ => .isFalse (by intro hc; cases hc)

/-! ## C2 — construction succeeds exactly on valid field triples -/

set_option maxRecDepth 4000 in
/-- C2: constructing an `InventoryItem` returns a validated item whose name
is the trimmed input string if and only if the name is a string that is
non-empty and at most 255 characters after trimming, the quantity is an
integer in [0, 1000000] and the price is numeric (integer or float) in
[0.0, 1000000.0]; otherwise construction fails with a `ValidationError`,
and each of the nine failure cases (non-string name, empty name, name over
length, non-integer quantity, negative quantity, quantity over max,
non-numeric price, negative price, price over max) is produced; `"  Laptop  "`
validates to `"Laptop"` and an empty or whitespace-only name fails. -/
theorem C2_construct_iff_valid :
    (∀ (n q p : PyVal) (i : Option Int) (c u : Option String),
        (∃ it, mkInventoryItem n q p i c u = .ok it ∧
            ∀ s, n = .vstr s → it.name = pyStrip s) ↔
          ((∃ s, n = .vstr s ∧ pyStrip s ≠ "" ∧ (pyStrip s).length ≤ 255) ∧
           (∃ k : Int, q = .vint k ∧ 0 ≤ k ∧ k ≤ 1000000) ∧
           ((∃ k : Int, p = .vint k ∧ (0:ℚ) ≤ (k:ℚ) ∧ (k:ℚ) ≤ 1000000) ∨
            (∃ x : ℚ, p = .vfloat x ∧ 0 ≤ x ∧ x ≤ 1000000))))
    ∧ (∃ it, mkInventoryItem (.vstr "  Laptop  ") (.vint 1) (.vfloat 1)
          none none none = .ok it ∧ it.name = "Laptop")
    ∧ mkInventoryItem (.vstr "") (.vint 1) (.vfloat 1) none none none
        = .error .nameEmpty
    ∧ mkInventoryItem (.vstr "   ") (.vint 1) (.vfloat 1) none none none
        = .error .nameEmpty
    ∧ mkInventoryItem (.vint 7) (.vint 1) (.vfloat 1) none none none
        = .error .nameNotString
    ∧ mkInventoryItem (.vstr (String.mk (List.replicate 256 'a'))) (.vint 1)
        (.vfloat 1) none none none = .error .nameTooLong
    ∧ mkInventoryItem (.vstr "A") (.vfloat 1) (.vfloat 1) none none none
        = .error .quantityNotInt
    ∧ mkInventoryItem (.vstr "A") (.vint (-1)) (.vfloat 1) none none none
        = .error .quantityNegative
    ∧ mkInventoryItem (.vstr "A") (.vint 1000001) (.vfloat 1) none none none
        = .error .quantityTooBig
    ∧ mkInventoryItem (.vstr "A") (.vint 1) (.vstr "x") none none none
        = .error .priceNotNumber
    ∧ mkInventoryItem (.vstr "A") (.vint 1) (.vfloat (-1)) none none none
        = .error .priceNegative
    ∧ mkInventoryItem (.vstr "A") (.vint 1) (.vfloat 1000001) none none none
        = .error .priceTooBig := by
  refine ⟨?_, ⟨⟨none, "Laptop", 1, 1, none, none⟩, by decide, by decide⟩,
    by decide, by decide, by decide, by decide, by decide,
    by decide, by decide, by decide, by decide, by decide⟩
  · intro n q p i c u
    constructor
    · rintro ⟨it, hmk, -⟩
      rw [mkInventoryItem_ok_iff] at hmk
      obtain ⟨hn, hq, hp, -, -, -⟩ := hmk
      rw [validate_name_ok_iff] at hn
      obtain ⟨s, rfl, -, hne, hle⟩ := hn
      rw [validate_quantity_ok_iff] at hq
      rw [validate_price_ok_iff] at hp
      obtain ⟨hpn, hp0, hp1⟩ := hp
      refine ⟨⟨s, rfl, hne, hle⟩, ⟨it.quantity, hq.1, hq.2.1, hq.2.2⟩, ?_⟩
      cases p with
      | vint k =>
          left
          simp only [priceNum, Option.some.injEq] at hpn
          exact ⟨k, rfl, by rw [hpn]; exact hp0, by rw [hpn]; exact hp1⟩
      | vfloat x =>
          right
          simp only [priceNum, Option.some.injEq] at hpn
          exact ⟨x, rfl, by rw [hpn]; exact hp0, by rw [hpn]; exact hp1⟩
      | vstr s' => simp [priceNum] at hpn
      | vnone => simp [priceNum] at hpn
    · rintro ⟨⟨s, rfl, hne, hle⟩, ⟨k, rfl, hk0, hk1⟩, hp⟩
      have hval : ∃ pv : ℚ, validate_price p = .ok pv := by
        rcases hp with ⟨m, rfl, hm0, hm1⟩ | ⟨x, rfl, hx0, hx1⟩
        · exact ⟨(m:ℚ), (validate_price_ok_iff _ _).mpr ⟨rfl, hm0, hm1⟩⟩
        · exact ⟨x, (validate_price_ok_iff _ _).mpr ⟨rfl, hx0, hx1⟩⟩
      obtain ⟨pv, hpv⟩ := hval
      refine ⟨{ item_id := i, name := pyStrip s, quantity := k, price := pv,
                created_at := c, updated_at := u }, ?_, ?_⟩
      · rw [mkInventoryItem_ok_iff]
        exact ⟨(validate_name_ok_iff _ _).mpr ⟨s, rfl, rfl, hne, hle⟩,
          (validate_quantity_ok_iff _ _).mpr ⟨rfl, hk0, hk1⟩, hpv,
          rfl, rfl, rfl⟩
      · intro s' hs'
        cases hs'
        rfl

/-- Witness for C2 at a concrete input. -/
theorem C2_witness :
    ∃ it, mkInventoryItem (.vstr " Desk ") (.vint 2) (.vfloat 3)
        (some 9) none none = .ok it ∧
      ∀ s, PyVal.vstr " Desk " = .vstr s → it.name = pyStrip s :=
  (C2_construct_iff_valid.1 (.vstr " Desk ") (.vint 2) (.vfloat 3)
      (some 9) none none).mpr
    ⟨⟨" Desk ", rfl, by decide, by decide⟩,
     ⟨2, rfl, by decide, by decide⟩,
     .inr ⟨3, rfl, by norm_num, by norm_num⟩⟩

/-! ## Store lemmas -/

theorem mem_le_maxRowId {db : DB} {r : Row} (hr : r ∈ db) :
    r.item_id ≤ maxRowId db := by
  induction db with
  | nil => cases hr
  | cons a l ih =>
      rw [List.mem_cons] at hr
      show r.item_id ≤ max a.item_id (maxRowId l)
      rcases hr with rfl | hr
      · exact le_max_left _ _
      · exact le_trans (ih hr) (le_max_right _ _)

theorem lt_nextRowId {db : DB} {r : Row} (hr : r ∈ db) :
    r.item_id < nextRowId db :=
  lt_of_le_of_lt (mem_le_maxRowId hr) (lt_add_one _)

theorem nextRowId_not_mem (db : DB) : nextRowId db ∉ ids db := by
  intro h
  rw [ids, List.mem_map] at h
  obtain ⟨r, hr, hid⟩ := h
  have := lt_nextRowId hr
  omega

theorem filter_id_pos_iff (db : DB) (i : Int) :
    0 < (db.filter (fun r => decide (r.item_id = i))).length ↔ i ∈ ids db := by
  constructor
  · intro h
    obtain ⟨r, hr⟩ := List.exists_mem_of_length_pos h
    rw [List.mem_filter] at hr
    rw [ids, List.mem_map]
    exact ⟨r, hr.1, by simpa using hr.2⟩
  · intro h
    rw [ids, List.mem_map] at h
    obtain ⟨r, hr, hid⟩ := h
    exact List.length_pos_of_mem
      (List.mem_filter.mpr ⟨hr, by simpa using hid⟩)

theorem filter_id_length_one {db : DB} {i : Int} (hnd : (ids db).Nodup)
    (hm : i ∈ ids db) :
    (db.filter (fun r => decide (r.item_id = i))).length = 1 := by
  induction db with
  | nil => simp [ids] at hm
  | cons a l ih =>
      rw [ids, List.map_cons, List.nodup_cons] at hnd
      rw [ids, List.map_cons, List.mem_cons] at hm
      rcases hm with hm | hm
      · rw [List.filter_cons_of_pos (by simpa using hm.symm)]
        have hzero : l.filter (fun r => decide (r.item_id = i)) = [] := by
          rw [List.filter_eq_nil_iff]
          intro r hr
          simp only [decide_eq_true_eq]
          intro hri
          exact hnd.1 (hm ▸ hri ▸ List.mem_map_of_mem _ hr)
        simp [hzero]
      · have hne : a.item_id ≠ i := by
          intro h
          exact hnd.1 (h ▸ hm)
        rw [List.filter_cons_of_neg (by simpa using hne)]
        exact ih hnd.2 hm

theorem add_item_cases (db : DB) (name : String) (quantity : Int) (price : ℚ) :
    (∀ it, (add_item db name quantity price).outcome = .ok it →
        mkInventoryItem (.vstr name) (.vint quantity) (.vfloat price)
            (some (nextRowId db)) none none = .ok it ∧
        (add_item db name quantity price).finalDb
          = db ++ [{ item_id := nextRowId db, name := name,
                     quantity := quantity, price := price }]) ∧
    (∀ e, (add_item db name quantity price).outcome = .error e →
        mkInventoryItem (.vstr name) (.vint quantity) (.vfloat price)
            (some (nextRowId db)) none none = .error e ∧
        (add_item db name quantity price).finalDb = db) := by
  cases hmk : mkInventoryItem (.vstr name) (.vint quantity) (.vfloat price)
      (some (nextRowId db)) none none <;>
    simp [add_item, runSession, add_item_body, hmk]

theorem update_item_all_none (db : DB) (i : Int) :
    update_item db i none none none =
      { outcome := .ok false, finalDb := db,
        committed := true, released := true } := rfl

theorem update_item_some_field (db : DB) (i : Int) (n : Option String)
    (q : Option Int) (p : Option ℚ)
    (h : ¬(n = none ∧ q = none ∧ p = none)) :
    update_item db i n q p =
      { outcome := .ok (decide
          (0 < (db.filter (fun r => decide (r.item_id = i))).length)),
        finalDb := db.map (fun r => if r.item_id = i then
          { r with name := n.getD r.name, quantity := q.getD r.quantity,
                   price := p.getD r.price } else r),
        committed := true, released := true } := by
  rcases n with _ | s <;> rcases q with _ | k <;> rcases p with _ | x <;>
    simp_all [update_item, runSession, update_item_body, buildUpdates,
      applyFieldSet]

theorem delete_item_eq (db : DB) (i : Int) :
    delete_item db i =
      { outcome := .ok (decide
          (0 < (db.filter (fun r => decide (r.item_id = i))).length)),
        finalDb := db.filter (fun r => decide (r.item_id ≠ i)),
        committed := true, released := true } := rfl

theorem get_item_eq (db : DB) (i : Int) :
    get_item db i =
      { outcome := .ok (db.find? (fun r => decide (r.item_id = i))),
        finalDb := db, committed := true, released := true } := rfl

theorem update_item_finalDb (db : DB) (i : Int) (n : Option String)
    (q : Option Int) (p : Option ℚ) :
    (update_item db i n q p).finalDb
      = db.map (fun r => if r.item_id = i then
          { r with name := n.getD r.name, quantity := q.getD r.quantity,
                   price := p.getD r.price } else r) := by
  by_cases h : n = none ∧ q = none ∧ p = none
  · obtain ⟨rfl, rfl, rfl⟩ := h
    rw [update_item_all_none]
    have hrow : ∀ r : Row,
        (if r.item_id = i then
          ({ r with name := (none : Option String).getD r.name,
                    quantity := (none : Option Int).getD r.quantity,
                    price := (none : Option ℚ).getD r.price }) else r) = r := by
      intro r
      split <;> rfl
    simp [hrow]
  · rw [update_item_some_field db i n q p h]

/-! ## C3 — id assignment -/

/-- C3 fails as stated: on the sequence Create "A", Create "B" (assigned
`item_id` 2), Delete 2, Create "C", the last Create is assigned `item_id`
2 again — not strictly greater than, and not distinct from, the id
previously assigned to the deleted item "B".  (SQLite `INTEGER PRIMARY
KEY` without `AUTOINCREMENT` reuses the id of a deleted maximal row.) -/
theorem C3_counterexample :
    (add_item (add_item [] "A" 1 1).finalDb "B" 1 1).outcome
        = .ok { item_id := some 2, name := "B", quantity := 1, price := 1,
                created_at := none, updated_at := none } ∧
    (add_item (delete_item
        (add_item (add_item [] "A" 1 1).finalDb "B" 1 1).finalDb 2).finalDb
        "C" 1 1).outcome
        = .ok { item_id := some 2, name := "C", quantity := 1, price := 1,
                created_at := none, updated_at := none } := by decide

/-- C3 (amended): each Create assigns the new item the id
`nextRowId db` = one more than the largest id currently stored, which is
strictly greater than, and distinct from, the ids of all items *currently
in the store*; ids of previously deleted items may be reused, so the
assigned id need not exceed ids assigned before a deletion of the maximal
row. -/
theorem C3_create_id_fresh :
    ∀ (db : DB) (name : String) (quantity : Int) (price : ℚ)
      (it : InventoryItem),
      (add_item db name quantity price).outcome = .ok it →
        it.item_id = some (nextRowId db) ∧
        (∀ r ∈ db, r.item_id < nextRowId db) ∧
        nextRowId db ∉ ids db := by
  intro db name quantity price it h
  obtain ⟨hmk, -⟩ := (add_item_cases db name quantity price).1 it h
  rw [mkInventoryItem_ok_iff] at hmk
  exact ⟨hmk.2.2.2.1, fun r hr => lt_nextRowId hr, nextRowId_not_mem db⟩

/-- Witness for C3 (amended) at a concrete input. -/
theorem C3_witness :
    ({ item_id := some 1, name := "A", quantity := 1, price := 1,
       created_at := none, updated_at := none } : InventoryItem).item_id
        = some (nextRowId []) ∧
    (∀ r ∈ ([] : DB), r.item_id < nextRowId []) ∧
    nextRowId [] ∉ ids [] :=
  C3_create_id_fresh [] "A" 1 1
    { item_id := some 1, name := "A", quantity := 1, price := 1,
      created_at := none, updated_at := none } (by decide)

/-! ## C4, C5 — update semantics -/

/-- C4: Update returns false when the item_id matches no stored row or when
zero fields are provided, in both cases leaving all stored rows unchanged,
and returns true iff exactly one row was modified (the store keeps ids
unique, hence the Nodup hypothesis). -/
theorem C4_update_result :
    ∀ (db : DB) (i : Int) (n : Option String) (q : Option Int)
      (p : Option ℚ),
      (ids db).Nodup →
        ((update_item db i n q p).outcome = .ok true ↔
          (¬(n = none ∧ q = none ∧ p = none) ∧ i ∈ ids db)) ∧
        ((update_item db i n q p).outcome = .ok false →
          (update_item db i n q p).finalDb = db) ∧
        ((update_item db i n q p).outcome = .ok true →
          (db.filter (fun r => decide (r.item_id = i))).length = 1) := by
  intro db i n q p hnd
  by_cases h : n = none ∧ q = none ∧ p = none
  · obtain ⟨rfl, rfl, rfl⟩ := h
    rw [update_item_all_none]
    simp
  · rw [update_item_some_field db i n q p h]
    simp only [SessionResult.mk.injEq]  -- no-op guard
    constructor
    · simp only [Except.ok.injEq, decide_eq_true_eq]
      constructor
      · intro ht
        exact ⟨h, (filter_id_pos_iff db i).mp ht⟩
      · rintro ⟨-, hm⟩
        exact (filter_id_pos_iff db i).mpr hm
    · constructor
      · intro hf
        simp only [Except.ok.injEq] at hf
        have hlen : ¬ 0 < (db.filter
            (fun r => decide (r.item_id = i))).length := by
          intro hc
          rw [decide_eq_true hc] at hf
          cases hf
        have hnone : ∀ r ∈ db, ¬ r.item_id = i := by
          intro r hr hri
          exact hlen (List.length_pos_of_mem
            (List.mem_filter.mpr ⟨hr, by simpa using hri⟩))
        have hrow : ∀ r ∈ db, (if r.item_id = i then
            ({ r with name := n.getD r.name, quantity := q.getD r.quantity,
                      price := p.getD r.price }) else r) = r := by
          intro r hr
          rw [if_neg (hnone r hr)]
        calc db.map _ = db.map id := List.map_congr_left hrow
          _ = db := List.map_id db
      · intro ht
        simp only [Except.ok.injEq, decide_eq_true_eq] at ht
        exact filter_id_length_one hnd ((filter_id_pos_iff db i).mp ht)

/-- Witness for C4 at a concrete input. -/
theorem C4_witness :
    ((update_item [] 1 (some "X") none none).outcome = .ok true ↔
      (¬((some "X" : Option String) = none ∧ (none : Option Int) = none ∧
          (none : Option ℚ) = none) ∧ (1 : Int) ∈ ids [])) ∧
    ((update_item [] 1 (some "X") none none).outcome = .ok false →
      (update_item [] 1 (some "X") none none).finalDb = []) ∧
    ((update_item [] 1 (some "X") none none).outcome = .ok true →
      (([] : DB).filter (fun r => decide (r.item_id = 1))).length = 1) :=
  C4_update_result [] 1 (some "X") none none (by decide)

/-- C5: a partial update overwrites exactly the supplied (non-null) fields
of the row whose `item_id` matches; every omitted field keeps its previous
value and rows with other item_ids are unchanged.  In particular updating
only `price` leaves `name` and `quantity` of the target row intact. -/
theorem C5_partial_update_frame :
    ∀ (db : DB) (i : Int) (n : Option String) (q : Option Int)
      (p : Option ℚ),
      (update_item db i n q p).finalDb
        = db.map (fun r => if r.item_id = i then
            { r with name := n.getD r.name, quantity := q.getD r.quantity,
                     price := p.getD r.price } else r) ∧
      (∀ p' : ℚ, (update_item db i none none (some p')).finalDb
        = db.map (fun r => if r.item_id = i then { r with price := p' }
            else r)) := by
  intro db i n q p
  refine ⟨update_item_finalDb db i n q p, fun p' => ?_⟩
  rw [update_item_finalDb db i none none (some p')]
  simp [Option.getD]

/-! ## C6, C7 — delete and read -/

/-- C6: Delete removes the row with the given id and returns true iff a
row was removed (false when the id did not exist); deleting and then
reading that item_id returns the not-found signal. -/
theorem C6_delete_semantics :
    ∀ (db : DB) (i : Int),
      ((delete_item db i).outcome = .ok true ↔ i ∈ ids db) ∧
      (get_item (delete_item db i).finalDb i).outcome = .ok none := by
  intro db i
  rw [delete_item_eq]
  constructor
  · simp only [Except.ok.injEq, decide_eq_true_eq]
    exact filter_id_pos_iff db i
  · rw [get_item_eq]
    simp only [Except.ok.injEq]
    rw [List.find?_eq_none]
    intro r hr
    rw [List.mem_filter] at hr
    simpa using hr.2

/-- C7: ReadOne returns the matching row's field mapping when a row with
the id exists and None otherwise; reading a just-created item by the
item_id returned from Create yields the same name, quantity and price
values that were passed to Create. -/
theorem C7_read_roundtrip :
    (∀ (db : DB) (i : Int),
        (i ∉ ids db → (get_item db i).outcome = .ok none) ∧
        (i ∈ ids db → ∃ r, (get_item db i).outcome = .ok (some r) ∧
            r.item_id = i ∧ r ∈ db)) ∧
    (∀ (db : DB) (name : String) (quantity : Int) (price : ℚ)
        (it : InventoryItem) (i : Int),
        (add_item db name quantity price).outcome = .ok it →
        it.item_id = some i →
        ∃ r, (get_item (add_item db name quantity price).finalDb i).outcome
              = .ok (some r) ∧
          r.name = name ∧ r.quantity = quantity ∧ r.price = price) := by
  constructor
  · intro db i
    constructor
    · intro hni
      rw [get_item_eq]
      simp only [Except.ok.injEq]
      rw [List.find?_eq_none]
      intro r hr
      simp only [decide_eq_true_eq]
      intro hri
      exact hni (List.mem_map.mpr ⟨r, hr, hri⟩)
    · intro hi
      have hsome : (db.find? (fun r => decide (r.item_id = i))).isSome := by
        rw [List.find?_isSome]
        rw [ids, List.mem_map] at hi
        obtain ⟨r, hr, hid⟩ := hi
        exact ⟨r, hr, by simpa using hid⟩
      obtain ⟨r, hr⟩ := Option.isSome_iff_exists.mp hsome
      refine ⟨r, by rw [get_item_eq]; simp [hr], ?_, ?_⟩
      · have := List.find?_some hr
        simpa using this
      · exact List.mem_of_find?_eq_some hr
  · intro db name quantity price it i hok hid
    obtain ⟨hmk, hdb⟩ := (add_item_cases db name quantity price).1 it hok
    rw [mkInventoryItem_ok_iff] at hmk
    have hieq : i = nextRowId db := by
      rw [hmk.2.2.2.1] at hid
      exact (Option.some_inj.mp hid).symm
    subst hieq
    refine ⟨{ item_id := nextRowId db, name := name, quantity := quantity,
              price := price }, ?_, rfl, rfl, rfl⟩
    rw [hdb, get_item_eq]
    simp only [Except.ok.injEq]
    rw [List.find?_append]
    have hfirst : db.find? (fun r => decide (r.item_id = nextRowId db))
        = none := by
      rw [List.find?_eq_none]
      intro r hr
      simp only [decide_eq_true_eq]
      intro hri
      exact absurd hri (by have := lt_nextRowId hr; omega)
    rw [hfirst]
    simp [List.find?]

/-- Witness for C7 at a concrete input. -/
theorem C7_witness :
    ∃ r, (get_item (add_item [] "Desk" 4 7).finalDb 1).outcome
          = .ok (some r) ∧
      r.name = "Desk" ∧ r.quantity = 4 ∧ r.price = 7 :=
  C7_read_roundtrip.2 [] "Desk" 4 7
    { item_id := some 1, name := "Desk", quantity := 4, price := 7,
      created_at := none, updated_at := none } 1 (by decide) rfl

/-! ## C8 — serialization keys -/

/-- C8 fails as stated: `to_dict` does not produce the key `"updated_at"`;
the source spells that key `"update_at"`.  Shown at a concrete item. -/
theorem C8_counterexample :
    (to_dict { item_id := some 1, name := "A", quantity := 1, price := 1,
               created_at := none, updated_at := none }).lookup "updated_at"
        = none ∧
    (to_dict { item_id := some 1, name := "A", quantity := 1, price := 1,
               created_at := none, updated_at := none }).map Prod.fst
      = ["item_id", "name", "quantity", "price", "created_at",
         "update_at"] := by decide

/-- C8 (amended): `to_dict` returns a mapping containing exactly the keys
`item_id`, `name`, `quantity`, `price`, `created_at` and `update_at` (the
updated-at timestamp is serialized under the misspelled key
`"update_at"`); each key maps to the item's corresponding field value and
each timestamp (and an unassigned item_id) maps to null when unset. -/
theorem C8_to_dict_keys :
    ∀ it : InventoryItem,
      (to_dict it).map Prod.fst
        = ["item_id", "name", "quantity", "price", "created_at",
           "update_at"] ∧
      (to_dict it).lookup "item_id" = some (optIntVal it.item_id) ∧
      (to_dict it).lookup "name" = some (.vstr it.name) ∧
      (to_dict it).lookup "quantity" = some (.vint it.quantity) ∧
      (to_dict it).lookup "price" = some (.vfloat it.price) ∧
      (to_dict it).lookup "created_at" = some (optStrVal it.created_at) ∧
      (to_dict it).lookup "update_at" = some (optStrVal it.updated_at) ∧
      (it.item_id = none → (to_dict it).lookup "item_id" = some .vnone) ∧
      (it.created_at = none →
        (to_dict it).lookup "created_at" = some .vnone) ∧
      (it.updated_at = none →
        (to_dict it).lookup "update_at" = some .vnone) := by
  intro it
  refine ⟨rfl, ?_, ?_, ?_, ?_, ?_, ?_, ?_, ?_, ?_⟩ <;>
    first
      | (intro h; simp [to_dict, List.lookup, h, optIntVal, optStrVal])
      | simp [to_dict, List.lookup]

/-- Witness for C8 (amended) at a concrete input. -/
theorem C8_witness :
    (to_dict { item_id := none, name := "B", quantity := 2, price := 3,
               created_at := none, updated_at := none }).lookup "item_id"
        = some .vnone ∧
    (to_dict { item_id := none, name := "B", quantity := 2, price := 3,
               created_at := none, updated_at := none }).lookup "created_at"
        = some .vnone ∧
    (to_dict { item_id := none, name := "B", quantity := 2, price := 3,
               created_at := none, updated_at := none }).lookup "update_at"
        = some .vnone := by
  obtain ⟨-, -, -, -, -, -, -, h8, h9, h10⟩ :=
    C8_to_dict_keys (⟨none, "B", 2, 3, none, none⟩ : InventoryItem)
  exact ⟨h8 rfl, h9 rfl, h10 rfl⟩

/-! ## C9 — persistence-session guarantees -/

theorem runSession_spec {α : Type} (db : DB)
    (body : DB → Except ValidationError (α × DB)) :
    (runSession db body).released = true ∧
    (∀ a, (runSession db body).outcome = .ok a →
      (runSession db body).committed = true) ∧
    (∀ e, (runSession db body).outcome = .error e →
      (runSession db body).finalDb = db ∧
      (runSession db body).committed = false ∧ body db = .error e) := by
  cases h : body db with
  | ok v => cases v; simp [runSession, h]
  | error e => simp [runSession, h]

/-- C9: every store operation runs inside a persistence session that
commits on normal completion and releases the connection/cursor on every
exit path; an error leaves the state rolled back to the pre-operation
state and propagates to the caller after cleanup.  (Modelled from the
spec: `src/database.py` is absent from the repository.) -/
theorem C9_session_guarantees :
    ∀ (db : DB) (name : String) (quantity : Int) (price : ℚ) (i : Int)
      (n : Option String) (q : Option Int) (p : Option ℚ),
      ((add_item db name quantity price).released = true ∧
        (∀ it, (add_item db name quantity price).outcome = .ok it →
          (add_item db name quantity price).committed = true) ∧
        (∀ e, (add_item db name quantity price).outcome = .error e →
          (add_item db name quantity price).finalDb = db ∧
          (add_item db name quantity price).committed = false ∧
          add_item_body name quantity price db = .error e)) ∧
      ((update_item db i n q p).released = true ∧
        (update_item db i n q p).committed = true ∧
        ∀ e, (update_item db i n q p).outcome ≠ .error e) ∧
      ((delete_item db i).released = true ∧
        (delete_item db i).committed = true ∧
        ∀ e, (delete_item db i).outcome ≠ .error e) ∧
      ((get_item db i).released = true ∧
        (get_item db i).committed = true ∧
        ∀ e, (get_item db i).outcome ≠ .error e) ∧
      ((get_all_items_data db).released = true ∧
        (get_all_items_data db).committed = true ∧
        ∀ e, (get_all_items_data db).outcome ≠ .error e) := by
  intro db name quantity price i n q p
  refine ⟨runSession_spec db (add_item_body name quantity price), ?_, ?_,
    ?_, ?_⟩
  · by_cases h : n = none ∧ q = none ∧ p = none
    · obtain ⟨rfl, rfl, rfl⟩ := h
      rw [update_item_all_none]
      simp
    · rw [update_item_some_field db i n q p h]
      simp
  · rw [delete_item_eq]
    simp
  · rw [get_item_eq]
    simp
  · exact ⟨rfl, rfl, fun e h => by cases h⟩

/-- Witness for C9 at a concrete input. -/
theorem C9_witness :
    (add_item [] "Pen" 1 2).released = true ∧
    (add_item [] "Pen" 1 2).committed = true ∧
    (update_item [] 1 none none none).released = true ∧
    (delete_item [] 1).released = true ∧
    (get_item [] 1).released = true ∧
    (get_all_items_data []).released = true := by
  obtain ⟨⟨ha1, ha2, -⟩, ⟨hu1, -, -⟩, ⟨hd1, -, -⟩, ⟨hg1, -, -⟩,
      ⟨hl1, -, -⟩⟩ :=
    C9_session_guarantees [] "Pen" 1 2 1 none none none
  exact ⟨ha1, ha2 (⟨some 1, "Pen", 1, 2, none, none⟩ : InventoryItem)
    (by decide), hu1, hd1, hg1, hl1⟩

/-! ## C1 — the update path persists unvalidated data -/

/-- C1 fails on the code: after creating a valid item ("Widget", 5, 10),
`update_item(1, quantity=-5)` succeeds and persists `quantity = -5 <
MIN_QUANTITY` — no validation runs before this write (neither
`InventoryManager.update_item` nor the PUT handler in `src/api.py` invokes
any validator), so a persisted item violates the quantity rule. -/
theorem C1_update_persists_invalid :
    (update_item (add_item [] "Widget" 5 10).finalDb 1
        none (some (-5)) none).outcome = .ok true ∧
    (update_item (add_item [] "Widget" 5 10).finalDb 1
        none (some (-5)) none).finalDb
      = [{ item_id := 1, name := "Widget", quantity := -5, price := 10 }] ∧
    ∃ r ∈ (update_item (add_item [] "Widget" 5 10).finalDb 1
        none (some (-5)) none).finalDb, r.quantity < MIN_QUANTITY := by
  refine ⟨by decide, by decide, ?_⟩
  exact ⟨{ item_id := 1, name := "Widget", quantity := -5, price := 10 },
    by decide, by decide⟩

/-! ## C10 — zero quantity/price rejected at the create endpoint -/

theorem truthy_vstr (s : String) : truthy (.vstr s) = decide (s ≠ "") := rfl

theorem truthy_vint (n : Int) : truthy (.vint n) = decide (n ≠ 0) := rfl

theorem truthy_vfloat (q : ℚ) : truthy (.vfloat q) = decide (q ≠ 0) := rfl

theorem truthy_vnone : truthy .vnone = false := rfl

/-- C10: at the create endpoint a JSON body whose quantity is 0 (or whose
price is 0) is rejected by the Python falsiness check as a missing-field
error ("Quantity is required" / "Price is required", HTTP 400) before any
validation or persistence, although 0 satisfies the model's validation
rules; consequently no row with quantity 0 or price 0 is ever persisted
through this endpoint. -/
theorem C10_zero_rejected :
    (∀ (db : DB) (data : Req),
        truthy (getKey data "name") = true →
        (getKey data "quantity" = .vint 0 ∨
          getKey data "quantity" = .vfloat 0) →
        add_item_api db data
          = ({ msg := .quantityRequired, code := 400 }, db)) ∧
    (∀ (db : DB) (data : Req),
        truthy (getKey data "name") = true →
        truthy (getKey data "quantity") = true →
        (getKey data "price" = .vint 0 ∨ getKey data "price" = .vfloat 0) →
        add_item_api db data
          = ({ msg := .priceRequired, code := 400 }, db)) ∧
    (∀ (db : DB) (data : Req) (r : Row),
        r ∈ (add_item_api db data).2 →
        r ∈ db ∨ (r.quantity ≠ 0 ∧ r.price ≠ 0)) := by
  have hnonempty : ∀ (data : Req),
      truthy (getKey data "name") = true → data.isEmpty = false := by
    intro data h
    cases data with
    | nil => simp [getKey, truthy] at h
    | cons a l => rfl
  refine ⟨?_, ?_, ?_⟩
  · intro db data hname hq
    have hne := hnonempty data hname
    rcases hq with hq | hq <;>
      simp [add_item_api, hne, hname, hq, truthy_vint, truthy_vfloat]
  · intro db data hname hquant hp
    have hne := hnonempty data hname
    rcases hp with hp | hp <;>
      simp [add_item_api, hne, hname, hquant, hp, truthy_vint,
        truthy_vfloat]
  · intro db data r hr
    by_cases h0 : data.isEmpty
    · left; simpa [add_item_api, h0] using hr
    by_cases h1 : truthy (getKey data "name")
    case neg => left; simpa [add_item_api, h0, h1] using hr
    by_cases h2 : truthy (getKey data "quantity")
    case neg => left; simpa [add_item_api, h0, h1, h2] using hr
    by_cases h3 : truthy (getKey data "price")
    case neg => left; simpa [add_item_api, h0, h1, h2, h3] using hr
    cases hvn : validate_name (getKey data "name") with
    | error e =>
        left; simpa [add_item_api, h0, h1, h2, h3, hvn] using hr
    | ok nm =>
    cases hvq : validate_quantity (getKey data "quantity") with
    | error e =>
        left; simpa [add_item_api, h0, h1, h2, h3, hvn, hvq] using hr
    | ok q =>
    cases hvp : validate_price (getKey data "price") with
    | error e =>
        left
        simpa [add_item_api, h0, h1, h2, h3, hvn, hvq, hvp] using hr
    | ok p =>
    obtain ⟨s, hs, -, -, -⟩ := (validate_name_ok_iff _ _).mp hvn
    rw [hs] at h1 hvn
    cases hout : (add_item db s q p).outcome with
    | error e =>
        have hdb := ((add_item_cases db s q p).2 e hout).2
        left
        simpa [add_item_api, h0, hs, h1, h2, h3, hvn, hvq, hvp, hout, hdb]
          using hr
    | ok it =>
        have hdb := ((add_item_cases db s q p).1 it hout).2
        have hr2 : r ∈ db ++ [(⟨nextRowId db, s, q, p⟩ : Row)] := by
          simpa [add_item_api, h0, hs, h1, h2, h3, hvn, hvq, hvp, hout, hdb]
            using hr
        rcases List.mem_append.mp hr2 with hmem | hmem
        · exact .inl hmem
        · right
          have hreq : r = (⟨nextRowId db, s, q, p⟩ : Row) := by
            simpa using hmem
          subst hreq
          constructor
          · have hqv := (validate_quantity_ok_iff _ _).mp hvq
            rw [hqv.1] at h2
            simpa [truthy_vint] using h2
          · have hpv := (validate_price_ok_iff _ _).mp hvp
            cases hpk : getKey data "price" with
            | vint k =>
                rw [hpk] at hpv h3
                simp only [priceNum, Option.some.injEq] at hpv
                simp only [truthy_vint, truthy_vfloat, decide_eq_true_eq]
                  at h3
                have : ((k : ℚ)) ≠ 0 := Int.cast_ne_zero.mpr h3
                rw [← hpv.1]
                simpa using this
            | vfloat x =>
                rw [hpk] at hpv h3
                simp only [priceNum, Option.some.injEq] at hpv
                simp only [truthy_vint, truthy_vfloat, decide_eq_true_eq]
                  at h3
                rw [← hpv.1]
                simpa using h3
            | vstr s' =>
                rw [hpk] at hpv
                simp [priceNum] at hpv
            | vnone =>
                rw [hpk] at hpv
                simp [priceNum] at hpv

/-- Witness for C10 at a concrete request. -/
theorem C10_witness :
    add_item_api [] [("name", .vstr "Pen"), ("quantity", .vint 0),
        ("price", .vint 5)]
      = ({ msg := .quantityRequired, code := 400 }, []) :=
  C10_zero_rejected.1 []
    [("name", .vstr "Pen"), ("quantity", .vint 0), ("price", .vint 5)]
    (by decide) (.inl (by decide))
